import Mathlib

/-!
Verification of the particle-field simulator of the fish-mouth water
cleaner (src/App.tsx, component AdvancedParticleSystem, together with the
ParticleType enum of the types module).

The simulator owns 800 particle records in four population bands
(500 water, 100 microplastic, 100 algae, 100 sediment) and advances each
record once per frame: advection, spin, cone interaction (solid ricochet
with hydrodynamic focusing, or water permeation), recycle, and pose
emission into per-species instanced-mesh batches.

JavaScript's Number is idealized as the real numbers here.  The source
uses Math.cos(Math.atan2(y, x)) and Math.sin(Math.atan2(y, x)), which for
(x, y) different from the origin equal x / sqrt(x^2 + y^2) and
y / sqrt(x^2 + y^2); every branch of the source that evaluates the angle
guards the distance away from 0 first (wall contact needs
dist >= coneRadius - 0.2 >= 0.3, permeation needs dist > 0.8 * coneRadius
>= 0.4), so the quotient form is exact on all executed paths.

A central modelling point: the TypeScript enum ParticleType (types
module) declares only the members WATER and MICROPLASTIC.  The component
nevertheless reads ParticleType.ALGAE and ParticleType.SEDIMENT; at
runtime both property accesses evaluate to undefined.  The runtime value
of a particle's type field is therefore one of the three values
modelled by TypeVal below, and every === comparison of the source is
translated against those runtime values.
-/

namespace FishMouth

/-- Fixed population counts (App.tsx lines 467-470). -/
def COUNT_WATER : ℕ := 500

def COUNT_PLASTIC : ℕ := 100

def COUNT_ALGAE : ℕ := 100

def COUNT_SEDIMENT : ℕ := 100

/-- Inlet plane (App.tsx line 481, START_Z). -/
def START_Z : ℝ := 10

/-- Reset depth (App.tsx line 482, END_Z). -/
def END_Z : ℝ := -15

/-- Cone slope (App.tsx line 483). -/
def CONE_SLOPE : ℝ := 0.15

/-- Inlet radius R0 (App.tsx line 484, INITIAL_RADIUS). -/
def INITIAL_RADIUS : ℝ := 2.5

/-- The four species, by population band (App.tsx lines 491-494). -/
inductive Species where
  | WATER
  | MICROPLASTIC
  | ALGAE
  | SEDIMENT
deriving DecidableEq, Repr

/-- Runtime value of a member access on the ParticleType enum.  The enum
(types module, the last lines of App.tsx) declares only WATER and
MICROPLASTIC, so ParticleType.ALGAE and ParticleType.SEDIMENT both
evaluate to the JavaScript value undefined, modelled as `undef`. -/
inductive TypeVal where
  | water
  | micro
  | undefinedVal
deriving DecidableEq, Repr

/-- The runtime type tag stored in a particle record at creation
(App.tsx lines 491-494): the value of the enum member named after the
band's species. -/
def typeVal : Species → TypeVal
  | .WATER => .water
  | .MICROPLASTIC => .micro
  | .ALGAE => .undefinedVal
  | .SEDIMENT => .undefinedVal

/-- Species of particle index i in the single 800-element population
array (App.tsx lines 490-494): first 500 water, then 100 microplastic,
then 100 algae, then 100 sediment. -/
def speciesAt (i : ℕ) : Species :=
  if 500 ≤ i ∧ i < 600 then .MICROPLASTIC
  else if 600 ≤ i ∧ i < 700 then .ALGAE
  else if 700 ≤ i then .SEDIMENT
  else .WATER

/-- The four output batches (the four instanced meshes of App.tsx lines
602-605). -/
inductive Bucket where
  | water
  | plastic
  | algae
  | sediment
deriving DecidableEq, Repr

/-- Output dispatch of App.tsx lines 602-605, by the runtime value of
p.type: an if/else-if chain of === comparisons against
ParticleType.WATER ('WATER'), ParticleType.MICROPLASTIC
('MICROPLASTIC'), ParticleType.ALGAE (undefined) and
ParticleType.SEDIMENT (undefined).  Because undefined === undefined, the
ALGAE arm captures every undef-tagged particle and the SEDIMENT arm is
dead; `none` would mean no batch receives the pose. -/
def bucketOf (t : TypeVal) : Option Bucket :=
  if t = .water then some .water
  else if t = .micro then some .plastic
  else if t = .undefinedVal then some .algae
  else if t = .undefinedVal then some .sediment
  else none

/-- Render scale of App.tsx lines 592-597: a chain of re-assignments
guarded by === comparisons against the enum members, again evaluated at
their runtime values (ALGAE and SEDIMENT both undefined). -/
def scaleOf (t : TypeVal) (filtered : Bool) : ℝ :=
  let s0 : ℝ := 0.08
  let s1 : ℝ := if t = .micro then 0.15 else s0
  let s2 : ℝ := if t = .undefinedVal then 0.12 else s1
  let s3 : ℝ := if t = .undefinedVal then 0.1 else s2
  if t = .water ∧ filtered = true then s3 * 0.1 else s3

/-- One particle record (App.tsx lines 500-513): position, velocity,
Euler rotation, rotation speed, runtime type tag, and the filtered
(permeated) flag. -/
structure Particle where
  px : ℝ
  py : ℝ
  pz : ℝ
  vx : ℝ
  vy : ℝ
  vz : ℝ
  rx : ℝ
  ry : ℝ
  rz : ℝ
  rotationSpeed : ℝ
  tval : TypeVal
  filtered : Bool

/-- The ambient random draws consumed by one respawn (App.tsx lines
573-584), presented as the derived quantities the code computes from
Math.random(): the unit direction (cx, cy) = (cos angle, sin angle) of
the random angle, the radius draw r = U(0,1) * 2.5, the spawn-depth
jitter zJit = U(0,1) * 5, the lateral velocity jitters
jx, jy = (U(0,1) - 0.5) * 0.1, and the axial draw u = U(0,1) feeding
vz = -(0.5 + u * 0.5). -/
structure Respawn where
  cx : ℝ
  cy : ℝ
  r : ℝ
  zJit : ℝ
  jx : ℝ
  jy : ℝ
  u : ℝ

/-- Ranges guaranteed for a respawn draw by its construction from
Math.random() calls. -/
def Respawn.sane (rd : Respawn) : Prop :=
  rd.cx ^ 2 + rd.cy ^ 2 = 1 ∧ 0 ≤ rd.r ∧ rd.r ≤ INITIAL_RADIUS ∧
  0 ≤ rd.zJit ∧ rd.zJit ≤ 5 ∧ |rd.jx| ≤ 0.05 ∧ |rd.jy| ≤ 0.05 ∧
  0 ≤ rd.u ∧ rd.u ≤ 1

/-- Step 1, advection (App.tsx lines 529-531):
position += velocity * (flowRate * 10 * dt). -/
noncomputable def advect (flowRate dt : ℝ) (p : Particle) : Particle :=
  { p with
    px := p.px + p.vx * (flowRate * 10 * dt)
    py := p.py + p.vy * (flowRate * 10 * dt)
    pz := p.pz + p.vz * (flowRate * 10 * dt) }

/-- Step 2, spin (App.tsx lines 533-537): non-water particles add their
rotation speed to the x and y Euler angles. -/
def spin (p : Particle) : Particle :=
  if p.tval ≠ .water then
    { p with rx := p.rx + p.rotationSpeed, ry := p.ry + p.rotationSpeed }
  else p

/-- Cone radius at axial position z (App.tsx line 541):
max(0.5, INITIAL_RADIUS - (START_Z - z) * CONE_SLOPE). -/
noncomputable def coneRadiusAt (z : ℝ) : ℝ :=
  max 0.5 (INITIAL_RADIUS - (START_Z - z) * CONE_SLOPE)

/-- Distance from the cone axis (App.tsx line 542):
sqrt(x^2 + y^2). -/
noncomputable def distAxis (p : Particle) : ℝ :=
  Real.sqrt (p.px ^ 2 + p.py ^ 2)

/-- Solid ricochet (App.tsx lines 546-554): on wall contact, clamp the
radial position to coneRadius - 0.3 along the current angle, add an
inward radial velocity impulse of 0.5, and amplify the axial speed by
1.1.  cos/sin of atan2(y, x) are written as x / dist and y / dist, exact
here because the guard forces dist >= coneRadius - 0.2 >= 0.3. -/
noncomputable def reflectIfWall (p : Particle) : Particle :=
  if distAxis p ≥ coneRadiusAt p.pz - 0.2 then
    { p with
      px := p.px / distAxis p * (coneRadiusAt p.pz - 0.3)
      py := p.py / distAxis p * (coneRadiusAt p.pz - 0.3)
      vx := p.vx + -(p.px / distAxis p) * 0.5
      vy := p.vy + -(p.py / distAxis p) * 0.5
      vz := p.vz * 1.1 }
  else p

/-- Hydrodynamic focusing (App.tsx lines 556-557):
x := lerp(x, 0, 0.01) = x + (0 - x) * 0.01, and likewise y. -/
noncomputable def focus (p : Particle) : Particle :=
  { p with
    px := p.px + (0 - p.px) * 0.01
    py := p.py + (0 - p.py) * 0.01 }

/-- Water permeation (App.tsx lines 560-567): an unfiltered water
particle beyond 0.8 * coneRadius gets an outward radial velocity impulse
of 0.05 and axial damping by 0.9, and becomes filtered once its distance
exceeds the cone radius.  The guard forces dist > 0.8 * coneRadius
>= 0.4, so the quotient form of cos/sin(atan2) is exact. -/
noncomputable def permeate (p : Particle) : Particle :=
  if distAxis p > coneRadiusAt p.pz * 0.8 ∧ p.filtered = false then
    { p with
      vx := p.vx + p.px / distAxis p * 0.05
      vy := p.vy + p.py / distAxis p * 0.05
      vz := p.vz * 0.9
      filtered := if distAxis p > coneRadiusAt p.pz then true else p.filtered }
  else p

/-- Step 3, cone interaction (App.tsx lines 539-569): active only inside
the band -10 < z < 5; solids ricochet then focus, water permeates. -/
noncomputable def interact (p : Particle) : Particle :=
  if p.pz < 5 ∧ p.pz > -10 then
    if p.tval ≠ .water then focus (reflectIfWall p)
    else permeate p
  else p

/-- Step 4, recycle (App.tsx lines 571-586): a particle with z < END_Z
or |x| > 5 respawns at a fresh random inlet position and velocity with
the filtered flag cleared; rotation is kept. -/
noncomputable def recycle (rd : Respawn) (p : Particle) : Particle :=
  if p.pz < END_Z ∨ |p.px| > 5 then
    { p with
      px := rd.cx * rd.r
      py := rd.cy * rd.r
      pz := START_Z + rd.zJit
      vx := rd.jx
      vy := rd.jy
      vz := -(0.5 + rd.u * 0.5)
      filtered := false }
  else p

/-- The whole per-particle tick (App.tsx lines 528-586): advection,
spin, cone interaction, recycle, in source order. -/
noncomputable def updateParticle (flowRate dt : ℝ) (rd : Respawn) (p : Particle) : Particle :=
  recycle rd (interact (spin (advect flowRate dt p)))

/-- The pose emitted for one particle (App.tsx lines 588-600): the
post-update position and rotation together with the per-species render
scale. -/
structure Pose where
  px : ℝ
  py : ℝ
  pz : ℝ
  rx : ℝ
  ry : ℝ
  rz : ℝ
  scale : ℝ

/-- Pose derivation from a post-update particle record. -/
noncomputable def emit (p : Particle) : Pose :=
  ⟨p.px, p.py, p.pz, p.rx, p.ry, p.rz, scaleOf p.tval p.filtered⟩

/-- System state: the particle records plus the per-species instanced
matrix buffers, which persist across frames (they are only rewritten by
a running frame). -/
structure Sys where
  parts : List Particle
  outWater : List Pose
  outPlastic : List Pose
  outAlgae : List Pose
  outSediment : List Pose

/-- Poses packed into one batch, in particle order, by the dispatch
chain of App.tsx lines 602-605 applied to the runtime type values. -/
noncomputable def bucketPoses (b : Bucket) (ps : List Particle) : List Pose :=
  (ps.filter (fun p => bucketOf p.tval = some b)).map emit

/-- One frame of AdvancedParticleSystem (App.tsx lines 519-611).  The
component receives flowRate, density, isRunning (line 472); line 520
returns immediately when not running, leaving particles and output
buffers untouched.  A running frame updates every particle (paired with
the respawn draws it would consume) and rewrites the four batches. -/
noncomputable def frame (running : Bool) (flowRate density dt : ℝ)
    (rds : List Respawn) (s : Sys) : Sys :=
  if running = false then s
  else
    let ps := (s.parts.zip rds).map (fun q => updateParticle flowRate dt q.2 q.1)
    { parts := ps
      outWater := bucketPoses .water ps
      outPlastic := bucketPoses .plastic ps
      outAlgae := bucketPoses .algae ps
      outSediment := bucketPoses .sediment ps }

/-- A whole paused stretch: fold the frame over a list of per-tick
inputs (flowRate, density, dt, respawn draws), each with running set to
false. -/
noncomputable def pausedRun (l : List (ℝ × ℝ × ℝ × List Respawn)) (s : Sys) : Sys :=
  l.foldl (fun st q => frame false q.1 q.2.1 q.2.2.1 q.2.2.2 st) s

/-- Number of particles of the 800-element population whose pose is
dispatched to batch b, counted over the creation-time type tags (which
the tick never changes, see updateParticle_tval). -/
def batchCount (b : Bucket) : ℕ :=
  ((List.range 800).filter (fun i => bucketOf (typeVal (speciesAt i)) = some b)).length

section AccessorLemmas

variable (flowRate dt : ℝ) (rd : Respawn) (p : Particle)

@[simp] lemma advect_px : (advect flowRate dt p).px = p.px + p.vx * (flowRate * 10 * dt) := rfl

@[simp] lemma advect_py : (advect flowRate dt p).py = p.py + p.vy * (flowRate * 10 * dt) := rfl

@[simp] lemma advect_pz : (advect flowRate dt p).pz = p.pz + p.vz * (flowRate * 10 * dt) := rfl

@[simp] lemma advect_vx : (advect flowRate dt p).vx = p.vx := rfl

@[simp] lemma advect_vy : (advect flowRate dt p).vy = p.vy := rfl

@[simp] lemma advect_vz : (advect flowRate dt p).vz = p.vz := rfl

@[simp] lemma advect_tval : (advect flowRate dt p).tval = p.tval := rfl

@[simp] lemma advect_filtered : (advect flowRate dt p).filtered = p.filtered := rfl

@[simp] lemma spin_px : (spin p).px = p.px := by unfold spin; split <;> rfl

@[simp] lemma spin_py : (spin p).py = p.py := by unfold spin; split <;> rfl

@[simp] lemma spin_pz : (spin p).pz = p.pz := by unfold spin; split <;> rfl

@[simp] lemma spin_vx : (spin p).vx = p.vx := by unfold spin; split <;> rfl

@[simp] lemma spin_vy : (spin p).vy = p.vy := by unfold spin; split <;> rfl

@[simp] lemma spin_vz : (spin p).vz = p.vz := by unfold spin; split <;> rfl

@[simp] lemma spin_tval : (spin p).tval = p.tval := by unfold spin; split <;> rfl

@[simp] lemma spin_filtered : (spin p).filtered = p.filtered := by unfold spin; split <;> rfl

@[simp] lemma focus_px : (focus p).px = p.px + (0 - p.px) * 0.01 := rfl

@[simp] lemma focus_py : (focus p).py = p.py + (0 - p.py) * 0.01 := rfl

@[simp] lemma focus_pz : (focus p).pz = p.pz := rfl

@[simp] lemma focus_tval : (focus p).tval = p.tval := rfl

@[simp] lemma focus_filtered : (focus p).filtered = p.filtered := rfl

@[simp] lemma focus_vz : (focus p).vz = p.vz := rfl

lemma reflectIfWall_pz : (reflectIfWall p).pz = p.pz := by
  unfold reflectIfWall; split <;> rfl

lemma reflectIfWall_tval : (reflectIfWall p).tval = p.tval := by
  unfold reflectIfWall; split <;> rfl

lemma reflectIfWall_filtered : (reflectIfWall p).filtered = p.filtered := by
  unfold reflectIfWall; split <;> rfl

lemma permeate_px : (permeate p).px = p.px := by
  unfold permeate; split <;> rfl

lemma permeate_py : (permeate p).py = p.py := by
  unfold permeate; split <;> rfl

lemma permeate_pz : (permeate p).pz = p.pz := by
  unfold permeate; split <;> rfl

lemma permeate_tval : (permeate p).tval = p.tval := by
  unfold permeate; split <;> rfl

lemma interact_pz : (interact p).pz = p.pz := by
  unfold interact
  split
  · split
    · rw [focus_pz, reflectIfWall_pz]
    · exact permeate_pz p
  · rfl

lemma interact_tval : (interact p).tval = p.tval := by
  unfold interact
  split
  · split
    · rw [focus_tval, reflectIfWall_tval]
    · exact permeate_tval p
  · rfl

lemma recycle_tval : (recycle rd p).tval = p.tval := by
  unfold recycle; split <;> rfl

/-- The tick never changes a particle's runtime type tag. -/
lemma updateParticle_tval : (updateParticle flowRate dt rd p).tval = p.tval := by
  unfold updateParticle
  rw [recycle_tval, interact_tval, spin_tval, advect_tval]

end AccessorLemmas

section HelperLemmas

variable (rd : Respawn) (q : Particle)

/-- Outside the interaction band, the interaction step is the identity. -/
lemma interact_id_outband (h : ¬(q.pz < 5 ∧ q.pz > -10)) : interact q = q := by
  unfold interact; exact if_neg h

/-- When the reset test fails, the recycle step is the identity. -/
lemma recycle_id (h : ¬(q.pz < END_Z ∨ |q.px| > 5)) : recycle rd q = q := by
  unfold recycle; exact if_neg h

/-- Water particles do not spin. -/
lemma spin_water (hw : q.tval = .water) : spin q = q := by
  unfold spin; rw [if_neg (by simp [hw])]

/-- An already filtered particle is unchanged by the permeation step. -/
lemma permeate_filtered_id (hf : q.filtered = true) : permeate q = q := by
  unfold permeate
  rw [if_neg]
  rintro ⟨-, h2⟩
  rw [hf] at h2
  exact absurd h2 (by simp)

/-- A filtered water particle passes the interaction step unchanged. -/
lemma interact_water_filtered_id (hw : q.tval = .water) (hf : q.filtered = true) :
    interact q = q := by
  unfold interact
  split
  · rw [if_neg (by simp [hw])]
    exact permeate_filtered_id q hf
  · rfl

/-- The interaction step never moves a water particle. -/
lemma interact_water_px (hw : q.tval = .water) : (interact q).px = q.px := by
  unfold interact
  split
  · rw [if_neg (by simp [hw])]
    exact permeate_px q
  · rfl

/-- The interaction step never moves a water particle. -/
lemma interact_water_py (hw : q.tval = .water) : (interact q).py = q.py := by
  unfold interact
  split
  · rw [if_neg (by simp [hw])]
    exact permeate_py q
  · rfl

/-- Distance from the axis of a particle on the x half-axis. -/
lemma distAxis_of_py_zero (h : q.py = 0) (h2 : 0 ≤ q.px) : distAxis q = q.px := by
  unfold distAxis
  rw [h]
  norm_num
  exact Real.sqrt_sq h2

/-- Distance from the axis scales with a common radial factor. -/
lemma distAxis_scale (c : ℝ) (q' : Particle)
    (hx : q'.px = c * q.px) (hy : q'.py = c * q.py) :
    distAxis q' = |c| * distAxis q := by
  unfold distAxis
  rw [hx, hy, mul_pow, mul_pow, ← mul_add, Real.sqrt_mul (sq_nonneg c),
    Real.sqrt_sq_eq_abs]

/-- The x coordinate is bounded by the distance from the axis. -/
lemma abs_px_le_distAxis : |q.px| ≤ distAxis q := by
  unfold distAxis
  rw [← Real.sqrt_sq_eq_abs]
  exact Real.sqrt_le_sqrt (by nlinarith [sq_nonneg q.py])

/-- The cone radius is at least 0.5 everywhere. -/
lemma coneRadiusAt_ge (z : ℝ) : 0.5 ≤ coneRadiusAt z := le_max_left _ _

/-- Inside the interaction band the cone radius is below the inlet
radius. -/
lemma coneRadiusAt_le (z : ℝ) (h : z < 5) : coneRadiusAt z ≤ 2.5 := by
  unfold coneRadiusAt START_Z INITIAL_RADIUS CONE_SLOPE
  apply max_le (by norm_num)
  nlinarith

/-- The ricochet step keeps the axial speed sign. -/
lemma reflectIfWall_vz_neg (h : q.vz < 0) : (reflectIfWall q).vz < 0 := by
  unfold reflectIfWall
  split
  · show q.vz * 1.1 < 0
    nlinarith
  · exact h

/-- The permeation step keeps the axial speed sign. -/
lemma permeate_vz_neg (h : q.vz < 0) : (permeate q).vz < 0 := by
  unfold permeate
  split
  · show q.vz * 0.9 < 0
    nlinarith
  · exact h

/-- The interaction step keeps the axial speed sign. -/
lemma interact_vz_neg (h : q.vz < 0) : (interact q).vz < 0 := by
  unfold interact
  split
  · split
    · rw [focus_vz]
      exact reflectIfWall_vz_neg q h
    · exact permeate_vz_neg q h
  · exact h

end HelperLemmas

/-- A neutral respawn draw: angle 0 (unit direction along x), zero
radius, zero jitters, axial draw 0. -/
noncomputable def rdZero : Respawn := ⟨1, 0, 0, 0, 0, 0, 0⟩

/-- A water particle on the axis above the interaction band. -/
noncomputable def pWater : Particle := ⟨0, 0, 6, 0, 0, -0.5, 0, 0, 0, 0, .water, false⟩

/-- A filtered water particle on the axis above the interaction band. -/
noncomputable def pWaterFiltered : Particle := ⟨0, 0, 6, 0, 0, -0.5, 0, 0, 0, 0, .water, true⟩

/-- A resting microplastic particle against the cone wall inside the
band. -/
noncomputable def pSolidWall : Particle := ⟨2.3, 0, 0, 0, 0, 0, 0, 0, 0, 0, .micro, false⟩

/-- A water particle far out on the y axis inside the band: the reset
test of the source reads only z and x, so such a state is never pulled
back. -/
noncomputable def pFarY : Particle := ⟨0, 40, 0, 0, 0.04, -0.5, 0, 0, 0, 0, .water, false⟩

/-- The spec's single-microplastic scenario particle at (2.4, 0, 9) with
zero lateral velocity and axial speed vz. -/
noncomputable def pScenario (vz : ℝ) : Particle :=
  ⟨2.4, 0, 9, 0, 0, vz, 0, 0, 0, 0, .micro, false⟩

set_option maxRecDepth 100000 in
/-- C1, code bug.  The claim asks that on every running tick each of the
four species batches receive exactly its fixed population of poses (500,
100, 100, 100), each into its own species' buffer and within capacity.
The type tags are fixed at creation and never changed by the tick (first
conjunct), but the enum of the types module declares neither ALGAE nor
SEDIMENT, so both enum accesses are undefined and the dispatch chain
sends every sediment particle into the ALGAE batch (second conjunct):
over the 800-particle population the algae batch receives 200 poses
(indices up to 199, beyond its capacity 100) and the sediment batch
receives none. -/
theorem c1_species_dispatch_bug :
    (∀ (fr dt : ℝ) (rd : Respawn) (p : Particle),
      (updateParticle fr dt rd p).tval = p.tval) ∧
    bucketOf (typeVal Species.SEDIMENT) = some Bucket.algae ∧
    batchCount Bucket.water = COUNT_WATER ∧
    batchCount Bucket.plastic = COUNT_PLASTIC ∧
    batchCount Bucket.algae = 200 ∧
    COUNT_ALGAE < 200 ∧
    batchCount Bucket.sediment = 0 := by
  refine ⟨fun fr dt rd p => updateParticle_tval fr dt rd p, by decide, ?_, ?_, ?_, ?_, ?_⟩
  all_goals decide

/-- C2, code bug.  The claim fixes the render scale per species (WATER
0.08 with ×0.1 when permeated, MICROPLASTIC 0.15, ALGAE 0.12, SEDIMENT
0.10).  Water, microplastic and sediment behave as claimed, but because
ParticleType.ALGAE and ParticleType.SEDIMENT are both undefined, the
sediment test also matches algae particles and overwrites their scale:
an algae particle is emitted at scale 0.1, not 0.12. -/
theorem c2_scale_bug :
    scaleOf (typeVal Species.WATER) false = 0.08 ∧
    scaleOf (typeVal Species.WATER) true = 0.08 * 0.1 ∧
    (∀ b, scaleOf (typeVal Species.MICROPLASTIC) b = 0.15) ∧
    (∀ b, scaleOf (typeVal Species.ALGAE) b = 0.1) ∧
    scaleOf (typeVal Species.ALGAE) false ≠ 0.12 ∧
    (∀ b, scaleOf (typeVal Species.SEDIMENT) b = 0.1) := by
  refine ⟨?_, ?_, ?_, ?_, ?_, ?_⟩
  · simp [scaleOf, typeVal]
  · simp [scaleOf, typeVal]
  · intro b; simp [scaleOf, typeVal]
  · intro b; simp [scaleOf, typeVal]
  · norm_num [scaleOf, typeVal]
  · intro b; simp [scaleOf, typeVal]

/-- C7, confirmed.  A frame invoked with running set to false returns
before touching any particle or output buffer, so any number of paused
frames, whatever flow rates, densities, time deltas and pending random
draws they carry, leave the whole system state bit-identical. -/
theorem c7_pause_identity :
    ∀ (l : List (ℝ × ℝ × ℝ × List Respawn)) (s : Sys), pausedRun l s = s := by
  intro l
  induction l with
  | nil => intro s; rfl
  | cons a t ih =>
      intro s
      have h : frame false a.1 a.2.1 a.2.2.1 a.2.2.2 s = s := by
        unfold frame
        rw [if_pos rfl]
      calc pausedRun (a :: t) s
          = pausedRun t (frame false a.1 a.2.1 a.2.2.1 a.2.2.2 s) := rfl
        _ = pausedRun t s := by rw [h]
        _ = s := ih s

/-- C8, confirmed.  The particleDensity control is received by the
component but never read by the frame body, so two frames differing only
in density produce identical particle states and identical output
batches. -/
theorem c8_density_independent :
    ∀ (running : Bool) (fr d₁ d₂ dt : ℝ) (rds : List Respawn) (s : Sys),
      frame running fr d₁ dt rds s = frame running fr d₂ dt rds s :=
  fun _ _ _ _ _ _ _ => rfl

/-- C9, confirmed.  With the per-respawn random draws attached to their
particles, the tick maps each particle record through the pure function
updateParticle of its own prior state alone, so updating the population
in any permuted order permutes — element for element — both the final
particle states and the emitted poses: each particle gets the same final
state and the same pose as in the in-order update. -/
theorem c9_order_independent (fr dt : ℝ) (l₁ l₂ : List (Particle × Respawn))
    (h : l₁.Perm l₂) :
    (l₁.map (fun q => updateParticle fr dt q.2 q.1)).Perm
      (l₂.map (fun q => updateParticle fr dt q.2 q.1)) ∧
    (l₁.map (fun q => emit (updateParticle fr dt q.2 q.1))).Perm
      (l₂.map (fun q => emit (updateParticle fr dt q.2 q.1))) :=
  ⟨h.map _, h.map _⟩

/-- Witness for C9 at a concrete two-particle population and its
swap. -/
theorem c9_order_independent_witness :
    ([(pWater, rdZero), (pSolidWall, rdZero)].map
        (fun q => updateParticle 1 0.1 q.2 q.1)).Perm
      ([(pSolidWall, rdZero), (pWater, rdZero)].map
        (fun q => updateParticle 1 0.1 q.2 q.1)) ∧
    ([(pWater, rdZero), (pSolidWall, rdZero)].map
        (fun q => emit (updateParticle 1 0.1 q.2 q.1))).Perm
      ([(pSolidWall, rdZero), (pWater, rdZero)].map
        (fun q => emit (updateParticle 1 0.1 q.2 q.1))) :=
  c9_order_independent 1 0.1 _ _
    (List.Perm.swap (pSolidWall, rdZero) (pWater, rdZero) [])

/-- C6, confirmed.  For a water particle whose permeated (filtered) flag
is already true, nothing before the recycle step can touch the flag (the
permeation branch requires it false), so after the tick the flag is
false exactly when this tick's recycle event fired — z below END_Z or
|x| above 5 at the post-advection position — and remains true
otherwise. -/
theorem c6_permeated_one_way (fr dt : ℝ) (rd : Respawn) (p : Particle)
    (hw : p.tval = TypeVal.water) (hf : p.filtered = true) :
    (updateParticle fr dt rd p).filtered =
      if (advect fr dt p).pz < END_Z ∨ |(advect fr dt p).px| > 5 then false
      else true := by
  have hwa : (advect fr dt p).tval = TypeVal.water := by rw [advect_tval]; exact hw
  have hspin : spin (advect fr dt p) = advect fr dt p := spin_water _ hwa
  have hint : interact (advect fr dt p) = advect fr dt p :=
    interact_water_filtered_id _ hwa (by rw [advect_filtered]; exact hf)
  unfold updateParticle
  rw [hspin, hint]
  unfold recycle
  split
  · rfl
  · rw [advect_filtered]
    exact hf

/-- Witness for C6: a filtered water particle above the band keeps its
flag across a running tick. -/
theorem c6_permeated_one_way_witness :
    (updateParticle 1 0.1 rdZero pWaterFiltered).filtered = true := by
  have h : ¬((advect 1 0.1 pWaterFiltered).pz < END_Z ∨
      |(advect 1 0.1 pWaterFiltered).px| > 5) := by
    rw [advect_pz, advect_px]
    push_neg
    norm_num [pWaterFiltered, END_Z]
  rw [c6_permeated_one_way 1 0.1 rdZero pWaterFiltered rfl rfl, if_neg h]

/-- C10, confirmed.  The axial speed is negative at spawn and respawn
(the draw gives a value in the interval from -1 to -0.5, middle
conjunct) and is only ever multiplied by 1.1 or 0.9 during interaction,
so it stays negative across the tick (first conjunct); with positive
flow rate and positive dt, the z coordinate therefore strictly decreases
on any running tick whose recycle event does not fire (last
conjunct). -/
theorem c10_axial_negative (fr dt : ℝ) (rd : Respawn) (p : Particle)
    (hfr : 0 < fr) (hdt : 0 < dt) (hvz : p.vz < 0)
    (hu0 : 0 ≤ rd.u) (hu1 : rd.u ≤ 1) :
    (updateParticle fr dt rd p).vz < 0 ∧
    (-(1 : ℝ) ≤ -(0.5 + rd.u * 0.5) ∧ -(0.5 + rd.u * 0.5) ≤ -0.5) ∧
    (¬((interact (spin (advect fr dt p))).pz < END_Z ∨
        |(interact (spin (advect fr dt p))).px| > 5) →
      (updateParticle fr dt rd p).pz < p.pz) := by
  have hmidvz : (interact (spin (advect fr dt p))).vz < 0 :=
    interact_vz_neg _ (by rw [spin_vz, advect_vz]; exact hvz)
  refine ⟨?_, ⟨by nlinarith, by nlinarith⟩, ?_⟩
  · unfold updateParticle recycle
    split
    · show -(0.5 + rd.u * 0.5) < 0
      nlinarith
    · exact hmidvz
  · intro h
    unfold updateParticle
    rw [recycle_id rd _ h, interact_pz, spin_pz, advect_pz]
    have hneg : p.vz * (fr * 10 * dt) < 0 := by
      apply mul_neg_of_neg_of_pos hvz
      positivity
    linarith

/-- Witness for C10 at a concrete water particle above the band. -/
theorem c10_axial_negative_witness :
    (updateParticle 1 0.1 rdZero pWater).vz < 0 ∧
    (-(1 : ℝ) ≤ -(0.5 + rdZero.u * 0.5) ∧ -(0.5 + rdZero.u * 0.5) ≤ -0.5) ∧
    (¬((interact (spin (advect 1 0.1 pWater))).pz < END_Z ∨
        |(interact (spin (advect 1 0.1 pWater))).px| > 5) →
      (updateParticle 1 0.1 rdZero pWater).pz < pWater.pz) :=
  c10_axial_negative 1 0.1 rdZero pWater (by norm_num) (by norm_num)
    (by norm_num [pWater]) (by norm_num [rdZero]) (by norm_num [rdZero])

/-- C4, confirmed.  A solid particle whose post-advection position lies
in the interaction band with distance from the axis at least
coneRadius - 0.2 is clamped by the ricochet to radius coneRadius - 0.3
and then pulled further in by the focusing factor 0.99, and the recycle
test cannot fire afterwards, so its distance from the axis at the end of
the tick is at most coneRadius - 0.3 (the claim's epsilon can be taken
as zero). -/
theorem c4_wall_containment (fr dt : ℝ) (rd : Respawn) (p : Particle)
    (hsolid : p.tval ≠ TypeVal.water)
    (hband : (advect fr dt p).pz < 5 ∧ (advect fr dt p).pz > -10)
    (hwall : distAxis (advect fr dt p) ≥
      coneRadiusAt (advect fr dt p).pz - 0.2) :
    distAxis (updateParticle fr dt rd p) ≤
      coneRadiusAt (advect fr dt p).pz - 0.3 := by
  have hcr05 : (0.5 : ℝ) ≤ coneRadiusAt (advect fr dt p).pz :=
    coneRadiusAt_ge _
  have hcr25 : coneRadiusAt (advect fr dt p).pz ≤ 2.5 :=
    coneRadiusAt_le _ hband.1
  have hdpos : 0 < distAxis (advect fr dt p) := by
    calc (0 : ℝ) < 0.3 := by norm_num
      _ ≤ coneRadiusAt (advect fr dt p).pz - 0.2 := by linarith
      _ ≤ distAxis (advect fr dt p) := hwall
  -- positions after the spin step coincide with the advected ones
  have hax : (spin (advect fr dt p)).px = (advect fr dt p).px := spin_px _
  have hay : (spin (advect fr dt p)).py = (advect fr dt p).py := spin_py _
  have haz : (spin (advect fr dt p)).pz = (advect fr dt p).pz := spin_pz _
  have hdA : distAxis (spin (advect fr dt p)) = distAxis (advect fr dt p) := by
    unfold distAxis
    rw [hax, hay]
  -- the interaction step takes the ricochet-then-focus path
  have hiact : interact (spin (advect fr dt p)) =
      focus (reflectIfWall (spin (advect fr dt p))) := by
    unfold interact
    rw [if_pos (by rw [haz]; exact hband),
      if_pos (by rw [spin_tval]; exact hsolid)]
  -- the ricochet fires
  have hrefl : reflectIfWall (spin (advect fr dt p)) =
      { spin (advect fr dt p) with
        px := (spin (advect fr dt p)).px / distAxis (spin (advect fr dt p)) *
          (coneRadiusAt (spin (advect fr dt p)).pz - 0.3)
        py := (spin (advect fr dt p)).py / distAxis (spin (advect fr dt p)) *
          (coneRadiusAt (spin (advect fr dt p)).pz - 0.3)
        vx := (spin (advect fr dt p)).vx +
          -((spin (advect fr dt p)).px / distAxis (spin (advect fr dt p))) * 0.5
        vy := (spin (advect fr dt p)).vy +
          -((spin (advect fr dt p)).py / distAxis (spin (advect fr dt p))) * 0.5
        vz := (spin (advect fr dt p)).vz * 1.1 } := by
    unfold reflectIfWall
    rw [if_pos (by rw [hdA, haz]; exact hwall)]
  -- the distance after ricochet and focusing
  have hscale : distAxis (focus (reflectIfWall (spin (advect fr dt p)))) =
      |(coneRadiusAt (advect fr dt p).pz - 0.3) /
          distAxis (advect fr dt p) * 0.99| *
        distAxis (advect fr dt p) := by
    apply distAxis_scale (advect fr dt p)
    · rw [focus_px, hrefl]
      show (spin (advect fr dt p)).px / distAxis (spin (advect fr dt p)) *
          (coneRadiusAt (spin (advect fr dt p)).pz - 0.3) +
          (0 - (spin (advect fr dt p)).px / distAxis (spin (advect fr dt p)) *
            (coneRadiusAt (spin (advect fr dt p)).pz - 0.3)) * 0.01 = _
      rw [hax, haz, hdA]
      ring
    · rw [focus_py, hrefl]
      show (spin (advect fr dt p)).py / distAxis (spin (advect fr dt p)) *
          (coneRadiusAt (spin (advect fr dt p)).pz - 0.3) +
          (0 - (spin (advect fr dt p)).py / distAxis (spin (advect fr dt p)) *
            (coneRadiusAt (spin (advect fr dt p)).pz - 0.3)) * 0.01 = _
      rw [hay, haz, hdA]
      ring
  have hfactor : |(coneRadiusAt (advect fr dt p).pz - 0.3) /
        distAxis (advect fr dt p) * 0.99| *
      distAxis (advect fr dt p) =
      0.99 * (coneRadiusAt (advect fr dt p).pz - 0.3) := by
    rw [abs_of_nonneg
      (mul_nonneg (div_nonneg (by linarith) hdpos.le) (by norm_num))]
    field_simp
    ring
  have hdnew : distAxis (focus (reflectIfWall (spin (advect fr dt p)))) =
      0.99 * (coneRadiusAt (advect fr dt p).pz - 0.3) := by
    rw [hscale, hfactor]
  -- the recycle test cannot fire on the clamped position
  have hnorec : ¬((focus (reflectIfWall (spin (advect fr dt p)))).pz < END_Z ∨
      |(focus (reflectIfWall (spin (advect fr dt p)))).px| > 5) := by
    push_neg
    constructor
    · rw [focus_pz, reflectIfWall_pz, haz]
      unfold END_Z
      linarith [hband.2]
    · calc |(focus (reflectIfWall (spin (advect fr dt p)))).px|
          ≤ distAxis (focus (reflectIfWall (spin (advect fr dt p)))) :=
            abs_px_le_distAxis _
        _ = 0.99 * (coneRadiusAt (advect fr dt p).pz - 0.3) := hdnew
        _ ≤ 5 := by linarith
  unfold updateParticle
  rw [hiact, recycle_id _ _ hnorec, hdnew]
  linarith

/-- Witness for C4: a resting microplastic particle against the wall at
z = 0 is clamped inside the cone. -/
theorem c4_wall_containment_witness :
    distAxis (updateParticle 1 0.1 rdZero pSolidWall) ≤
      coneRadiusAt (advect 1 0.1 pSolidWall).pz - 0.3 := by
  have hpz : (advect 1 0.1 pSolidWall).pz = 0 := by
    rw [advect_pz]
    norm_num [pSolidWall]
  have hdax : distAxis (advect 1 0.1 pSolidWall) = 2.3 := by
    rw [distAxis_of_py_zero]
    · rw [advect_px]; norm_num [pSolidWall]
    · rw [advect_py]; norm_num [pSolidWall]
    · rw [advect_px]; norm_num [pSolidWall]
  have hcr : coneRadiusAt (advect 1 0.1 pSolidWall).pz = 1 := by
    rw [hpz]
    unfold coneRadiusAt START_Z INITIAL_RADIUS CONE_SLOPE
    norm_num
  exact c4_wall_containment 1 0.1 rdZero pSolidWall (by simp [pSolidWall])
    (by rw [hpz]; norm_num) (by rw [hdax, hcr]; norm_num)

/-- C5 counterexample.  The recycle test of the source reads only z and
|x|, never |y|, so the tick enforces no bound on |y|: a water particle
at y = 40 inside the band simply drifts to y = 40.04 under one running
tick (flowRate 1, dt 0.1) without being recycled, violating the claimed
bound of 2 * R0 = 5 plus the per-tick advection overshoot. -/
theorem c5_y_unbounded_cex :
    (updateParticle 1 0.1 rdZero pFarY).py = 40.04 ∧
    ¬(|(updateParticle 1 0.1 rdZero pFarY).py| ≤
        2 * INITIAL_RADIUS + |pFarY.vy * (1 * 10 * 0.1)|) := by
  have hwa : (advect 1 0.1 pFarY).tval = TypeVal.water := by
    rw [advect_tval]
    rfl
  have hspin : spin (advect 1 0.1 pFarY) = advect 1 0.1 pFarY :=
    spin_water _ hwa
  have hpz : (interact (advect 1 0.1 pFarY)).pz = -0.5 := by
    rw [interact_pz, advect_pz]
    norm_num [pFarY]
  have hpx : (interact (advect 1 0.1 pFarY)).px = 0 := by
    rw [interact_water_px _ hwa, advect_px]
    norm_num [pFarY]
  have hpy : (interact (advect 1 0.1 pFarY)).py = 40.04 := by
    rw [interact_water_py _ hwa, advect_py]
    norm_num [pFarY]
  have hrec : ¬((interact (advect 1 0.1 pFarY)).pz < END_Z ∨
      |(interact (advect 1 0.1 pFarY)).px| > 5) := by
    rw [hpz, hpx]
    push_neg
    norm_num [END_Z]
  have hfinal : (updateParticle 1 0.1 rdZero pFarY).py = 40.04 := by
    unfold updateParticle
    rw [hspin, recycle_id _ _ hrec, hpy]
  refine ⟨hfinal, ?_⟩
  rw [hfinal]
  rw [abs_of_nonneg (by norm_num : (0 : ℝ) ≤ 40.04)]
  have hov : |pFarY.vy * (1 * 10 * 0.1)| = 0.04 := by
    rw [abs_of_nonneg (by norm_num [pFarY])]
    norm_num [pFarY]
  rw [hov]
  norm_num [INITIAL_RADIUS]

/-- C5 as amended.  After the recycle step of a running tick the z
coordinate lies between END_Z and the largest initial spawn depth
START_Z + 20 (given it did before the tick and the advection step does
not raise z), and |x| is at most 5 (at most R0 when freshly recycled);
but no bound holds for |y|, which the recycle test never reads (see the
counterexample). -/
theorem c5_bounds_amended (fr dt : ℝ) (rd : Respawn) (p : Particle)
    (hrd : rd.sane) (hz : p.pz ≤ START_Z + 20)
    (hadv : p.vz * (fr * 10 * dt) ≤ 0) :
    END_Z ≤ (updateParticle fr dt rd p).pz ∧
    (updateParticle fr dt rd p).pz ≤ START_Z + 20 ∧
    |(updateParticle fr dt rd p).px| ≤ 5 := by
  obtain ⟨hcxy, hr0, hr1, hj0, hj1, hjx, hjy, hu0, hu1⟩ := hrd
  have hmidz : (interact (spin (advect fr dt p))).pz =
      p.pz + p.vz * (fr * 10 * dt) := by
    rw [interact_pz, spin_pz, advect_pz]
  unfold updateParticle recycle
  split
  · refine ⟨?_, ?_, ?_⟩
    · show END_Z ≤ START_Z + rd.zJit
      unfold END_Z START_Z
      linarith
    · show START_Z + rd.zJit ≤ START_Z + 20
      linarith
    · show |rd.cx * rd.r| ≤ 5
      have hcx : |rd.cx| ≤ 1 := by
        nlinarith [sq_abs rd.cx, abs_nonneg rd.cx, sq_nonneg rd.cy]
      have hr25 : rd.r ≤ 2.5 := by
        unfold INITIAL_RADIUS at hr1
        exact hr1
      rw [abs_mul, abs_of_nonneg hr0]
      nlinarith [abs_nonneg rd.cx]
  · rename_i h
    push_neg at h
    refine ⟨h.1, ?_, h.2⟩
    rw [hmidz]
    linarith

/-- Witness for the amended C5 at a concrete water particle. -/
theorem c5_bounds_amended_witness :
    END_Z ≤ (updateParticle 1 0.1 rdZero pWater).pz ∧
    (updateParticle 1 0.1 rdZero pWater).pz ≤ START_Z + 20 ∧
    |(updateParticle 1 0.1 rdZero pWater).px| ≤ 5 :=
  c5_bounds_amended 1 0.1 rdZero pWater
    (by unfold Respawn.sane rdZero INITIAL_RADIUS; norm_num)
    (by norm_num [pWater, START_Z])
    (by norm_num [pWater])

/-- Evaluation of the spec's single-microplastic scenario: with
flowRate 1 and dt 0.1 the advection multiplier is 1, so z drops from 9
to 9 + vz, a point above the interaction band; the particle is neither
reflected nor recycled and keeps its radial position 2.4 and its
velocity. -/
lemma scenario_step (vz : ℝ) (h1 : -1 ≤ vz) (h2 : vz ≤ -0.5) :
    (updateParticle 1 0.1 rdZero (pScenario vz)).pz = 9 + vz ∧
    (updateParticle 1 0.1 rdZero (pScenario vz)).px = 2.4 ∧
    (updateParticle 1 0.1 rdZero (pScenario vz)).py = 0 ∧
    (updateParticle 1 0.1 rdZero (pScenario vz)).vz = vz ∧
    distAxis (updateParticle 1 0.1 rdZero (pScenario vz)) = 2.4 := by
  have haz : (advect 1 0.1 (pScenario vz)).pz = 9 + vz := by
    rw [advect_pz]
    norm_num [pScenario]
  have hax : (advect 1 0.1 (pScenario vz)).px = 2.4 := by
    rw [advect_px]
    norm_num [pScenario]
  have hay : (advect 1 0.1 (pScenario vz)).py = 0 := by
    rw [advect_py]
    norm_num [pScenario]
  have hbz : (spin (advect 1 0.1 (pScenario vz))).pz = 9 + vz := by
    rw [spin_pz, haz]
  have hbx : (spin (advect 1 0.1 (pScenario vz))).px = 2.4 := by
    rw [spin_px, hax]
  have hby : (spin (advect 1 0.1 (pScenario vz))).py = 0 := by
    rw [spin_py, hay]
  have hout : ¬((spin (advect 1 0.1 (pScenario vz))).pz < 5 ∧
      (spin (advect 1 0.1 (pScenario vz))).pz > -10) := by
    rw [hbz]
    rintro ⟨hc, -⟩
    linarith
  have hrec : ¬((spin (advect 1 0.1 (pScenario vz))).pz < END_Z ∨
      |(spin (advect 1 0.1 (pScenario vz))).px| > 5) := by
    rw [hbz, hbx]
    push_neg
    unfold END_Z
    constructor
    · linarith
    · rw [abs_of_nonneg (by norm_num : (0 : ℝ) ≤ 2.4)]
      norm_num
  have hfinal : updateParticle 1 0.1 rdZero (pScenario vz) =
      spin (advect 1 0.1 (pScenario vz)) := by
    unfold updateParticle
    rw [interact_id_outband _ hout, recycle_id _ _ hrec]
  rw [hfinal]
  refine ⟨hbz, hbx, hby, ?_, ?_⟩
  · rw [spin_vz, advect_vz]
    rfl
  · rw [distAxis_of_py_zero _ hby (by rw [hbx]; norm_num), hbx]

/-- C3 counterexample.  At the spec's scenario input (microplastic at
(2.4, 0, 9), lateral velocity zero, axial speed -0.5, flowRate 1,
dt 0.1), one tick moves z to 8.5 — a decrease of 0.5, tenfold the
claimed 0.05 — and since 8.5 is above the interaction band no reflection
happens: the distance from the axis stays 2.4 instead of the claimed
coneRadius - 0.3 = 2.05.  Both approximate assertions of the claim fail
even at the generous tolerance 0.2. -/
theorem c3_scenario_cex :
    (updateParticle 1 0.1 rdZero (pScenario (-0.5))).pz = 8.5 ∧
    ¬(|(pScenario (-0.5)).pz -
        (updateParticle 1 0.1 rdZero (pScenario (-0.5))).pz - 0.05| ≤ 0.2) ∧
    distAxis (updateParticle 1 0.1 rdZero (pScenario (-0.5))) = 2.4 ∧
    ¬(|distAxis (updateParticle 1 0.1 rdZero (pScenario (-0.5))) -
        (coneRadiusAt (pScenario (-0.5)).pz - 0.3)| ≤ 0.2) := by
  obtain ⟨hpz, -, -, -, hdist⟩ :=
    scenario_step (-0.5) (by norm_num) (by norm_num)
  have hz9 : (pScenario (-0.5)).pz = 9 := rfl
  have hcr : coneRadiusAt (pScenario (-0.5)).pz = 2.35 := by
    rw [hz9]
    unfold coneRadiusAt START_Z INITIAL_RADIUS CONE_SLOPE
    norm_num
  refine ⟨?_, ?_, hdist, ?_⟩
  · rw [hpz]
    norm_num
  · rw [hpz, hz9]
    rw [abs_of_nonneg (by norm_num : (0 : ℝ) ≤ 9 - (9 + -0.5) - 0.05)]
    norm_num
  · rw [hdist, hcr]
    rw [abs_of_nonneg (by norm_num : (0 : ℝ) ≤ 2.4 - (2.35 - 0.3))]
    norm_num

/-- C3 as amended.  For any axial speed vz of the spawn range, one tick
at flowRate 1 and dt 0.1 moves the scenario particle's z from 9 to
9 + vz (a decrease of |vz|, between 0.5 and 1), which is still above the
interaction band, so no reflection occurs: the distance from the axis
stays exactly 2.4 and the velocity is unchanged. -/
theorem c3_scenario_amended (vz : ℝ) (h1 : -1 ≤ vz) (h2 : vz ≤ -0.5) :
    (updateParticle 1 0.1 rdZero (pScenario vz)).pz = 9 + vz ∧
    (updateParticle 1 0.1 rdZero (pScenario vz)).vz = vz ∧
    distAxis (updateParticle 1 0.1 rdZero (pScenario vz)) = 2.4 := by
  obtain ⟨hpz, -, -, hvz, hdist⟩ := scenario_step vz h1 h2
  exact ⟨hpz, hvz, hdist⟩

/-- Witness for the amended C3 at axial speed -0.5. -/
theorem c3_scenario_amended_witness :
    (updateParticle 1 0.1 rdZero (pScenario (-0.5))).pz = 9 + -0.5 ∧
    (updateParticle 1 0.1 rdZero (pScenario (-0.5))).vz = -0.5 ∧
    distAxis (updateParticle 1 0.1 rdZero (pScenario (-0.5))) = 2.4 :=
  c3_scenario_amended (-0.5) (by norm_num) (by norm_num)

end FishMouth
